import Mathlib

/-!
Verification development for the awap-matchmaking match-orchestration service.

The Lean definitions below are a shallow embedding of the Python source:

* `src/decode_replay.py` — replay-output parsing (`parse_tango_output`);
* `src/server/ranked_game_runner.py` — Elo arithmetic, the ranked-scrimmage
  registry (`RankedScrimmageTableEntry`) and the scrimmage orchestration
  (`ranked_scrimmage_thread`, `post_tango_callback`,
  `post_scrimmage_callback`);
* `src/server/tournament_runner.py` — the best-of-N pairing runner
  (`TourneyPairUpRunner`), the tournament registry (`OngoingTourneyTable`)
  and bracket seeding (`tournament_worker_thread`);
* `src/main.py` — the engine-registry update (`setup_game_engine`).

Python dictionaries are embedded as association lists, mutable object state
as explicit state passing, raised exceptions as `Except` errors, and side
effects on the database or object storage as explicit `DbEffect` values.
The presigned-URL generator of the storage adapter is an external
collaborator and is passed in as a function argument `urlOf`.
-/

namespace Awap

/-- Embedding of `UserSubmission` (src/server/match_runner.py). -/
structure UserSubmission where
  username : String
  s3_bucket_name : String
  s3_object_name : String
  deriving DecidableEq, Repr

/-- Embedding of `MatchPlayer` (src/server/match_runner.py): a submission
together with the rating sampled at scheduling time. -/
structure MatchPlayer where
  user_info : UserSubmission
  rating : Int
  deriving DecidableEq, Repr

/-! ## Replay parsing (src/decode_replay.py) -/

/-- The sentinel line `header` of src/decode_replay.py. -/
def header : String := "====== BEGIN REPLAY HERE ======"

/-- Errors that `parse_tango_output` can raise: `FailedReplayException`
carrying the split lines, or the `IndexError` from `lines[i + 1]` when the
header is the very last line. -/
inductive TangoParseError where
  | failedReplay (lines : List String)
  | indexError
  deriving DecidableEq, Repr

deriving instance DecidableEq for Except

/-- Splitting of a character list at newline characters, with an accumulator
for the current piece.  Used to embed Python `str.splitlines`. -/
def splitNewlines : List Char → List Char → List (List Char)
  | acc, [] => [acc.reverse]
  | acc, c :: rest =>
    if c = '\n' then acc.reverse :: splitNewlines [] rest
    else splitNewlines (c :: acc) rest

/-- Embedding of Python `str.splitlines` for newline-separated text: split on
the newline character and drop the empty piece produced by a trailing
newline, so that a final line terminator does not create an extra empty
line.  (The other Unicode line terminators recognised by Python do not occur
in the runner outputs considered here.) -/
def pySplitlines (s : String) : List String :=
  let parts := (splitNewlines [] s.toList).map (fun l => String.mk l)
  if parts.getLast? = some "" then parts.dropLast else parts

/-- The scanning loop of `parse_tango_output`: walk the lines, and on the
first line equal to `header` return the following line (raising `IndexError`
when there is none, as Python would for `lines[i + 1]`); if no line matches,
raise `FailedReplayException(lines)` carrying all of the original lines. -/
def findHeaderLine (allLines : List String) : List String → Except TangoParseError String
  | [] => .error (.failedReplay allLines)
  | line :: rest =>
    if line = header then
      match rest with
      | next :: _ => .ok next
      | [] => .error .indexError
    else findHeaderLine allLines rest

/-- Embedding of `parse_tango_output` (src/decode_replay.py): decode the
runner output, split it into lines and scan for the replay header. -/
def parse_tango_output (file : String) : Except TangoParseError String :=
  findHeaderLine (pySplitlines file) (pySplitlines file)

/-! ## Ranked scrimmage pairing construction
(`RankedGameRunner.ranked_scrimmage_thread`, src/server/ranked_game_runner.py) -/

namespace RankedGameRunner

/-- The class constant `RankedGameRunner.num_matches`. -/
def num_matches : Nat := 4

end RankedGameRunner

/-- Python list indexing `players[j]` for a possibly negative index `j`:
a negative index counts from the end of the list.  An index outside
`[-length, length)` raises `IndexError` in Python; the embedding returns
`none` there, and the pairing loop below only ever produces in-range
indices for the player counts accepted by `run_ranked_scrimmage`. -/
def pyIdx (players : List MatchPlayer) (j : Int) : Option MatchPlayer :=
  if 0 ≤ j then players[j.toNat]?
  else players[(players.length - (-j).toNat)]?

/-- The body of the inner pairing loop of `ranked_scrimmage_thread`: skip
self-pairings and add the pair ordered with the lower-rated team first
(ties keep the current player first, per `opponent.rating < curr_player.rating`). -/
def addScrimmagePair (curr opponent : MatchPlayer)
    (ms : Finset (String × String)) : Finset (String × String) :=
  if opponent.user_info.username ≠ curr.user_info.username then
    if opponent.rating < curr.rating then
      insert (opponent.user_info.username, curr.user_info.username) ms
    else
      insert (curr.user_info.username, opponent.user_info.username) ms
  else ms

/-- The inner loop `for j in range(bot_index, bot_index + num_matches + 1)`
of `ranked_scrimmage_thread`, indexing `scrimmage_players[j]` with Python
semantics: `j` is the current index and the `Nat` argument counts the
remaining iterations, starting from `num_matches + 1`. -/
def scrimmageInnerLoop (players : List MatchPlayer) (curr : MatchPlayer) :
    Int → Nat → Finset (String × String) → Finset (String × String)
  | _, 0, ms => ms
  | j, n + 1, ms =>
    scrimmageInnerLoop players curr (j + 1) n
      (match pyIdx players j with
       | some opponent => addScrimmagePair curr opponent ms
       | none => ms)

/-- The outer loop `for i, curr_player in enumerate(scrimmage_players)` of
`ranked_scrimmage_thread`: each player at index `i` is paired with the
players at indices `bot_index .. bot_index + num_matches` where
`bot_index = min(index_upper_bound, max(0, i - 2))`. -/
def scrimmageOuterLoop (players : List MatchPlayer) (upper : Int) :
    Nat → List MatchPlayer → Finset (String × String) → Finset (String × String)
  | _, [], ms => ms
  | i, curr :: rest, ms =>
    scrimmageOuterLoop players upper (i + 1) rest
      (scrimmageInnerLoop players curr (min upper (max 0 ((i : Int) - 2)))
        (RankedGameRunner.num_matches + 1) ms)

/-- Embedding of the match-set construction of `ranked_scrimmage_thread`
(src/server/ranked_game_runner.py, the `matches` set), with
`index_upper_bound = len(players) - 1 - num_matches`. -/
def scrimmageMatches (players : List MatchPlayer) : Finset (String × String) :=
  scrimmageOuterLoop players
    ((players.length : Int) - 1 - (RankedGameRunner.num_matches : Int)) 0 players ∅

/-! ## Claim C2 — BROKEN sentinels in replay output -/

/-- Helper: when no line equals the replay header, the scanning loop of
`parse_tango_output` raises `FailedReplayException` carrying all lines. -/
lemma findHeaderLine_eq_error_of_not_mem (allLines : List String) :
    ∀ rem : List String, header ∉ rem →
      findHeaderLine allLines rem = .error (.failedReplay allLines)
 := by
  intro rem
  induction rem with
  | nil => exact fun _ => rfl
  | cons line rest ih =>
    intro h
    have hne : line ≠ header := fun e => h (e ▸ List.mem_cons_self _ _)
    have hstep : findHeaderLine allLines (line :: rest) = findHeaderLine allLines rest := by
      simp [findHeaderLine, hne]
    rw [hstep]
    exact ih (fun hm => h (List.mem_cons_of_mem _ hm))

/-- C2 (counterexample): a runner output whose sentinel line is
`===== RED BROKEN =====` (respectively `===== BLUE BROKEN =====`) does NOT
make replay processing return a winner; `parse_tango_output` recognises
only the `====== BEGIN REPLAY HERE ======` header and raises
`FailedReplayException`, i.e. exactly the parse failure the claim rules
out.  (`process_replay` in src/server/storage_handler.py starts with
`parse_tango_output`, so the exception propagates and no winner of 2,
respectively 1, is ever produced.) -/
theorem c2_broken_sentinel_raises_parse_failure :
    parse_tango_output "===== RED BROKEN =====" =
      .error (.failedReplay ["===== RED BROKEN ====="]) ∧
    parse_tango_output "===== BLUE BROKEN =====" =
      .error (.failedReplay ["===== BLUE BROKEN ====="]) := by
  constructor <;> decide

/-- C2 (amended): for every runner output none of whose lines is the replay
header — in particular outputs whose sentinel line is one of the BROKEN
sentinels — `parse_tango_output` raises `FailedReplayException` carrying
the split lines; no winner is declared. -/
theorem c2_no_header_raises_failed_replay (file : String)
    (h : header ∉ pySplitlines file) :
    parse_tango_output file = .error (.failedReplay (pySplitlines file)) :=
  findHeaderLine_eq_error_of_not_mem _ _ h

/-- Witness for `c2_no_header_raises_failed_replay` at the RED BROKEN
sentinel output. -/
theorem c2_no_header_raises_failed_replay_witness :
    header ∉ pySplitlines "===== RED BROKEN =====" ∧
    parse_tango_output "===== RED BROKEN =====" =
      .error (.failedReplay (pySplitlines "===== RED BROKEN =====")) :=
  ⟨by decide, c2_no_header_raises_failed_replay _ (by decide)⟩

/-! ## Claim C7 — pairing construction for a four-player scrimmage -/

/-- Python indexing into a four-element player list at index `-1` wraps to
the last element. -/
lemma pyIdx4_m1 (p0 p1 p2 p3 : MatchPlayer) : pyIdx [p0, p1, p2, p3] (-1) = some p3 := rfl

/-- Python indexing into a four-element player list at index `0`. -/
lemma pyIdx4_0 (p0 p1 p2 p3 : MatchPlayer) : pyIdx [p0, p1, p2, p3] 0 = some p0 := rfl

/-- Python indexing into a four-element player list at index `1`. -/
lemma pyIdx4_1 (p0 p1 p2 p3 : MatchPlayer) : pyIdx [p0, p1, p2, p3] 1 = some p1 := rfl

/-- Python indexing into a four-element player list at index `2`. -/
lemma pyIdx4_2 (p0 p1 p2 p3 : MatchPlayer) : pyIdx [p0, p1, p2, p3] 2 = some p2 := rfl

/-- Python indexing into a four-element player list at index `3`. -/
lemma pyIdx4_3 (p0 p1 p2 p3 : MatchPlayer) : pyIdx [p0, p1, p2, p3] 3 = some p3 := rfl

set_option maxHeartbeats 1000000 in
/-- C7: for a scrimmage whose (descending-sorted) player list has exactly
four players with pairwise distinct usernames and pairwise distinct ratings
`ra > rb > rc > rd`, the pairing-construction step of
`ranked_scrimmage_thread` produces exactly the six pairings
`(B,A), (C,A), (D,A), (C,B), (D,B), (D,C)` — each player meets its three
distinct opponents and each tuple lists the lower-rated team first. -/
theorem c7_scrimmage_of_four_produces_six_pairings
    (a b c d : UserSubmission) (ra rb rc rd : Int)
    (hab : a.username ≠ b.username) (hac : a.username ≠ c.username)
    (had : a.username ≠ d.username) (hbc : b.username ≠ c.username)
    (hbd : b.username ≠ d.username) (hcd : c.username ≠ d.username)
    (h1 : rb < ra) (h2 : rc < rb) (h3 : rd < rc) :
    scrimmageMatches [⟨a, ra⟩, ⟨b, rb⟩, ⟨c, rc⟩, ⟨d, rd⟩] =
      {(b.username, a.username), (c.username, a.username), (d.username, a.username),
       (c.username, b.username), (d.username, b.username), (d.username, c.username)} := by
  have h4 : rc < ra := h2.trans h1
  have h5 : rd < rb := h3.trans h2
  have h6 : rd < ra := h3.trans h4
  have n1 : ¬ ra < rb := by omega
  have n2 : ¬ ra < rc := by omega
  have n3 : ¬ ra < rd := by omega
  have n4 : ¬ rb < rc := by omega
  have n5 : ¬ rb < rd := by omega
  have n6 : ¬ rc < rd := by omega
  have hb0 : (3 - (RankedGameRunner.num_matches : Int)) ⊓ 0 = -1 := by decide
  have hb1 : (3 - (RankedGameRunner.num_matches : Int)) ⊓ 1 = -1 := by decide
  simp only [scrimmageMatches, List.length_cons, List.length_nil]
  simp only [scrimmageOuterLoop]
  norm_num
  simp only [scrimmageInnerLoop, hb0, hb1]
  norm_num
  simp only [pyIdx4_m1, pyIdx4_0, pyIdx4_1, pyIdx4_2, pyIdx4_3]
  simp only [addScrimmagePair]
  simp only [h1, h2, h3, h4, h5, h6, n1, n2, n3, n4, n5, n6, if_true, if_false,
    ite_true, ite_false, ne_eq]
  simp only [hab, hac, had, hbc, hbd, hcd, Ne.symm hab, Ne.symm hac, Ne.symm had,
    Ne.symm hbc, Ne.symm hbd, Ne.symm hcd, not_true, not_false_iff, if_true,
    if_false, ite_true, ite_false, eq_self_iff_true, not_false_eq_true]
  ext x
  simp only [Finset.mem_insert, Finset.mem_singleton, Finset.not_mem_empty, or_false]
  tauto

/-- Witness for `c7_scrimmage_of_four_produces_six_pairings` at the
concrete scrimmage of §8 scenario 4: ratings A=1600, B=1500, C=1400,
D=1300. -/
theorem c7_scrimmage_of_four_produces_six_pairings_witness :
    ("A" : String) ≠ "B" ∧ ("A" : String) ≠ "C" ∧ ("A" : String) ≠ "D" ∧
    ("B" : String) ≠ "C" ∧ ("B" : String) ≠ "D" ∧ ("C" : String) ≠ "D" ∧
    (1500 : Int) < 1600 ∧ (1400 : Int) < 1500 ∧ (1300 : Int) < 1400 ∧
    scrimmageMatches
        [⟨⟨"A", "", ""⟩, 1600⟩, ⟨⟨"B", "", ""⟩, 1500⟩,
         ⟨⟨"C", "", ""⟩, 1400⟩, ⟨⟨"D", "", ""⟩, 1300⟩] =
      {("B", "A"), ("C", "A"), ("D", "A"), ("C", "B"), ("D", "B"), ("D", "C")} :=
  ⟨by decide, by decide, by decide, by decide, by decide, by decide,
   by decide, by decide, by decide,
   c7_scrimmage_of_four_produces_six_pairings
     ⟨"A", "", ""⟩ ⟨"B", "", ""⟩ ⟨"C", "", ""⟩ ⟨"D", "", ""⟩ 1600 1500 1400 1300
     (by decide) (by decide) (by decide) (by decide) (by decide) (by decide)
     (by decide) (by decide) (by decide)⟩

/-! ## Database effects (src/server/storage_handler.py)

Calls the orchestration code makes into the storage adapter are recorded as
explicit effect values: `update_finished_match_in_table`,
`update_failed_match_in_table` and `adjust_elo_table`. -/

/-- A write performed through `StorageHandler` (src/server/storage_handler.py),
with the `MatchTableSchema` fields the caller actually sets. -/
inductive DbEffect where
  | updateFinished (match_id : Int) (outcome : String) (replay_filename : String)
      (elo_change : Int) (replay_url : String)
  | updateFailed (match_id : Int)
  | adjustElo (new_elos : List (String × Int))
  deriving DecidableEq, Repr

/-! ## Tournament pairing runner (`TourneyPairUpRunner`,
src/server/tournament_runner.py) -/

/-- The mutable series fields of `TourneyPairUpRunner`: `next_match_id`,
`p1wins`, `p2wins`, `replayLocs` and `matchWinners`. -/
structure SeriesState where
  next_match_id : Int
  p1wins : Nat
  p2wins : Nat
  replayLocs : List String
  matchWinners : List Int
  deriving DecidableEq, Repr

/-- The shared tail of `TourneyPairUpRunner.__call__` for a decisive winner:
fetch the presigned replay URL, write the FINISHED row for
`next_match_id` (with the `MatchTableSchema` default `elo_change = 0`), and
append the URL and the winner to the series lists. -/
def seriesRecordWin (urlOf : String → String) (s : SeriesState) (winner : Int)
    (replay : String) : SeriesState × List DbEffect :=
  let replay_url := urlOf replay
  ({ s with replayLocs := s.replayLocs ++ [replay_url],
            matchWinners := s.matchWinners ++ [winner] },
   [.updateFinished s.next_match_id ("team" ++ toString winner) replay 0 replay_url])

/-- Embedding of `TourneyPairUpRunner.__call__`
(src/server/tournament_runner.py): winner 1 or 2 increments the matching
win counter and records the finished match; any other winner appends the
literal `"failed"` and `-1` without touching the database, and in every
case the pairing semaphore is released (which in this sequential embedding
is the return itself). -/
def pairCallback (urlOf : String → String) (s : SeriesState) (winner : Int)
    (replay : String) : SeriesState × List DbEffect :=
  if winner = 1 then
    seriesRecordWin urlOf { s with p1wins := s.p1wins + 1 } winner replay
  else if winner = 2 then
    seriesRecordWin urlOf { s with p2wins := s.p2wins + 1 } winner replay
  else
    ({ s with replayLocs := s.replayLocs ++ ["failed"],
              matchWinners := s.matchWinners ++ [-1] }, [])

/-- The replay filename `tournament-{match_id}.json` that
`run_tournament_callback` (src/main.py) passes to the registry on success;
on failure it passes the empty string. -/
def tournamentReplayName (match_id : Int) : String :=
  "tournament-" ++ toString match_id ++ ".json"

/-- Result of the sequential map loop of `TourneyPairUpRunner.start`: the
final series state, the database writes, and the dispatched jobs
`(match_id, map)` in dispatch order. -/
structure SeriesRun where
  state : SeriesState
  effects : List DbEffect
  dispatched : List (Int × String)
  deriving DecidableEq, Repr

/-- Embedding of the loop `for match_map in self.maps` of
`TourneyPairUpRunner.start`: the `k`-th iteration allocates the next match
id (modelled as `startId + k`), dispatches the job, blocks on the pairing
semaphore until the runner callback delivers `results k`, and then the
registered `TourneyPairUpRunner.__call__` processes that result.  The loop
runs over every map of the list unconditionally. -/
def runSeriesFrom (urlOf : String → String) (results : Nat → Int) (startId : Int) :
    Nat → SeriesState → List String → SeriesRun
  | _, s, [] => ⟨s, [], []⟩
  | k, s, match_map :: rest =>
    let mid := startId + (k : Int)
    let s1 := { s with next_match_id := mid }
    let replay := if results k = 1 ∨ results k = 2 then tournamentReplayName mid else ""
    let step := pairCallback urlOf s1 (results k) replay
    let tail := runSeriesFrom urlOf results startId (k + 1) step.1 rest
    ⟨tail.state, step.2 ++ tail.effects, (mid, match_map) :: tail.dispatched⟩

/-- A JSON-like value appearing in the pairing-result dictionaries that
`TourneyPairUpRunner.start` returns. -/
inductive JVal where
  | s (v : String)
  | strList (v : List String)
  | intList (v : List Int)
  deriving DecidableEq, Repr

/-- The value returned by `TourneyPairUpRunner.start`: the result
dictionary (embedded as an association list with the literal keys of the
source), the advancing player, and the jobs dispatched plus database
writes performed while running the series. -/
structure PairOutcome where
  result : List (String × JVal)
  advancing : MatchPlayer
  dispatched : List (Int × String)
  effects : List DbEffect
  deriving DecidableEq, Repr

/-- The `actual_player` computation of the bye branch of
`TourneyPairUpRunner.start`: take `p1`, fall back to `p2` when `p1` is
`None`. -/
def actualPlayer : Option MatchPlayer → Option MatchPlayer → Option MatchPlayer
  | some a, _ => some a
  | none, p2 => p2

/-- Embedding of `TourneyPairUpRunner.start`
(src/server/tournament_runner.py).  A bye pairing (at least one side
`None`) returns its dictionary immediately — note the source uses the key
`"winner"` there, not `"overall_winner"`, and dispatches nothing; the
`assert` failure when both sides are `None` is the `none` result.  A real
pairing runs the sequential series over all maps and then takes player 1
as the winner exactly when `p1wins >= p2wins`. -/
def startPair (urlOf : String → String) (results : Nat → Int) (startId : Int)
    (maps : List String) (p1 p2 : Option MatchPlayer) : Option PairOutcome :=
  if p1 = none ∨ p2 = none then
    match actualPlayer p1 p2 with
    | none => none
    | some actual =>
      some ⟨[("player1", JVal.s actual.user_info.username),
             ("player2", JVal.s "bye"),
             ("winner", JVal.s actual.user_info.username),
             ("replay_filename", JVal.strList [])],
            actual, [], []⟩
  else
    match p1, p2 with
    | some a, some b =>
      let run := runSeriesFrom urlOf results startId 0 ⟨-1, 0, 0, [], []⟩ maps
      let winner := if run.state.p1wins ≥ run.state.p2wins then a else b
      some ⟨[("player1", JVal.s a.user_info.username),
             ("player2", JVal.s b.user_info.username),
             ("overall_winner", JVal.s winner.user_info.username),
             ("replay_filename", JVal.strList run.state.replayLocs),
             ("map_winners", JVal.intList run.state.matchWinners)],
            winner, run.dispatched, run.effects⟩
    | _, _ => none

/-- Embedding of `OngoingTourneyTable.__call__`
(src/server/tournament_runner.py): look the match id up in the
mutex-guarded callbacks dictionary and invoke the registered pairing
callback.  A missing key raises `KeyError` (the `.error` case) before
anything is mutated or invoked, so the registry is left unchanged; the
source dictionary maps match ids to the shared `TourneyPairUpRunner`
object, whose mutable fields are the returned `SeriesState`. -/
def ongoingTourneyFire (urlOf : String → String)
    (callbacks : List (Int × SeriesState)) (match_id : Int) (winner : Int)
    (replay : String) : Except Unit (SeriesState × List DbEffect) :=
  match callbacks.lookup match_id with
  | none => .error ()
  | some s => .ok (pairCallback urlOf s winner replay)

/-! ## Tournament bracket seeding (`TournamentRunner.tournament_worker_thread`,
src/server/tournament_runner.py) -/

namespace TournamentRunner

/-- Embedding of the static method `TournamentRunner.is_pow_two`. -/
def is_pow_two (n : Nat) : Bool := n != 0 && (n &&& (n - 1)) == 0

end TournamentRunner

/-- The padding loop
`while not self.is_pow_two(len(tournament_players)): tournament_players.append(None)`
of `tournament_worker_thread`, with an explicit iteration bound.  From a
list of length `n` the loop reaches the next power of two after at most
`n` appends (the next power of two is at most `2n` for `n ≥ 1`, and the
empty list needs exactly one append), so `n + 1` units of fuel are always
enough. -/
def padWithByes : Nat → List (Option MatchPlayer) → List (Option MatchPlayer)
  | 0, players => players
  | fuel + 1, players =>
    if TournamentRunner.is_pow_two players.length then players
    else padWithByes fuel (players ++ [none])

/-- The bye padding of `tournament_worker_thread`: append `None` until the
player count is a power of two. -/
def padPlayers (players : List (Option MatchPlayer)) : List (Option MatchPlayer) :=
  padWithByes (players.length + 1) players

/-- The initial-layer construction of `tournament_worker_thread`: for
`i in range(len(players) // 2)` append `players[i]` and then
`players[len(players) - i - 1]`. -/
def initialLayer (padded : List (Option MatchPlayer)) : List (Option MatchPlayer) :=
  (List.range (padded.length / 2)).foldl
    (fun acc i => acc ++ [padded.getD i none, padded.getD (padded.length - i - 1) none]) []

/-- The pairing split of the layer loop of `tournament_worker_thread`:
`(curr_tournament_layer[i], curr_tournament_layer[i + 1])` for
`i in range(0, len(layer), 2)`. -/
def layerPairs : List (Option MatchPlayer) → List (Option MatchPlayer × Option MatchPlayer)
  | p1 :: p2 :: rest => (p1, p2) :: layerPairs rest
  | _ => []

/-! ## Claim C3 — tournament seeding ignores `num_tournament_spots` -/

/-- C3 (evaluation at the failing input): a tournament request with five
ranked submissions and `num_tournament_spots = 4`.  The worker thread of
`TournamentRunner` never reads `num_tournament_spots`: all five players are
padded to eight bracket slots, the fifth-ranked player is seeded into the
initial layer, and the round-1 pairings contain the pairing
`(p4, p5)` — contradicting the claim that players beyond the first
`num_tournament_spots` appear in no pairing (and contradicting the
`/tournament` endpoint docstring in src/main.py, which promises that only
the top `num_tournament_spots` players participate).  The padding half of
the claim does hold: the padded list has power-of-two length 8. -/
theorem c3_all_submitted_players_are_seeded :
    (padPlayers [some ⟨⟨"p1", "", ""⟩, 1500⟩, some ⟨⟨"p2", "", ""⟩, 1400⟩,
        some ⟨⟨"p3", "", ""⟩, 1300⟩, some ⟨⟨"p4", "", ""⟩, 1200⟩,
        some ⟨⟨"p5", "", ""⟩, 1100⟩]).length = 8 ∧
    initialLayer (padPlayers [some ⟨⟨"p1", "", ""⟩, 1500⟩, some ⟨⟨"p2", "", ""⟩, 1400⟩,
        some ⟨⟨"p3", "", ""⟩, 1300⟩, some ⟨⟨"p4", "", ""⟩, 1200⟩,
        some ⟨⟨"p5", "", ""⟩, 1100⟩]) =
      [some ⟨⟨"p1", "", ""⟩, 1500⟩, none, some ⟨⟨"p2", "", ""⟩, 1400⟩, none,
       some ⟨⟨"p3", "", ""⟩, 1300⟩, none, some ⟨⟨"p4", "", ""⟩, 1200⟩,
       some ⟨⟨"p5", "", ""⟩, 1100⟩] ∧
    (some ⟨⟨"p4", "", ""⟩, 1200⟩, some ⟨⟨"p5", "", ""⟩, 1100⟩) ∈
      layerPairs (initialLayer (padPlayers [some ⟨⟨"p1", "", ""⟩, 1500⟩,
        some ⟨⟨"p2", "", ""⟩, 1400⟩, some ⟨⟨"p3", "", ""⟩, 1300⟩,
        some ⟨⟨"p4", "", ""⟩, 1200⟩, some ⟨⟨"p5", "", ""⟩, 1100⟩])) := by
  refine ⟨by decide, by decide, by decide⟩

/-! ## Claim C4 — best-of-N series inside a tournament pairing -/

/-- The number of results equal to `w` delivered for the first `n`
dispatched maps of a series, counting from dispatch index `k`. -/
def seriesWinCount (results : Nat → Int) (k n : Nat) (w : Int) : Nat :=
  (List.range n).countP (fun j => decide (results (k + j) = w))

/-- Unfolding of `seriesWinCount` over one additional map. -/
lemma seriesWinCount_succ (results : Nat → Int) (k n : Nat) (w : Int) :
    seriesWinCount results k (n + 1) w
      = (if results k = w then 1 else 0) + seriesWinCount results (k + 1) n w := by
  unfold seriesWinCount
  rw [List.range_succ_eq_map, List.countP_cons, List.countP_map]
  have harg : ((fun j => decide (results (k + j) = w)) ∘ Nat.succ)
      = (fun j => decide (results (k + 1 + j) = w)) := by
    funext j
    have : k + Nat.succ j = k + 1 + j := by omega
    simp only [Function.comp_apply, this]
  rw [harg]
  simp only [Nat.add_zero, decide_eq_true_eq]
  by_cases h : results k = w
  · simp [h, Nat.add_comm]
  · simp [h]

/-- The pairing callback increments `p1wins` exactly on winner 1. -/
lemma pairCallback_p1wins (urlOf : String → String) (s : SeriesState) (w : Int) (r : String) :
    (pairCallback urlOf s w r).1.p1wins = s.p1wins + (if w = 1 then 1 else 0) := by
  unfold pairCallback seriesRecordWin
  by_cases h1 : w = 1 <;> by_cases h2 : w = 2 <;> simp [h1, h2]

/-- The pairing callback increments `p2wins` exactly on winner 2. -/
lemma pairCallback_p2wins (urlOf : String → String) (s : SeriesState) (w : Int) (r : String) :
    (pairCallback urlOf s w r).1.p2wins = s.p2wins + (if w = 2 then 1 else 0) := by
  unfold pairCallback seriesRecordWin
  by_cases h1 : w = 1 <;> by_cases h2 : w = 2 <;> simp [h1, h2]

/-- The series loop of `TourneyPairUpRunner.start` dispatches one job per
map of the list — all of them, with no early exit — and accumulates the win
counters as the counts of 1-results and 2-results among the delivered
callbacks. -/
lemma runSeriesFrom_spec (urlOf : String → String) (results : Nat → Int) (startId : Int) :
    ∀ (maps : List String) (k : Nat) (s : SeriesState),
      (runSeriesFrom urlOf results startId k s maps).dispatched.map Prod.snd = maps ∧
      (runSeriesFrom urlOf results startId k s maps).state.p1wins
        = s.p1wins + seriesWinCount results k maps.length 1 ∧
      (runSeriesFrom urlOf results startId k s maps).state.p2wins
        = s.p2wins + seriesWinCount results k maps.length 2 := by
  intro maps
  induction maps with
  | nil =>
    intro k s
    simp [runSeriesFrom, seriesWinCount]
  | cons m rest ih =>
    intro k s
    obtain ⟨ih1, ih2, ih3⟩ := ih (k + 1)
      ((pairCallback urlOf { s with next_match_id := startId + (k : Int) } (results k)
        (if results k = 1 ∨ results k = 2 then tournamentReplayName (startId + (k : Int)) else "")).1)
    simp only [runSeriesFrom, List.map_cons, List.length_cons]
    rw [seriesWinCount_succ, seriesWinCount_succ]
    refine ⟨by rw [ih1], ?_, ?_⟩
    · rw [ih2, pairCallback_p1wins]
      simp only [Nat.add_assoc]
    · rw [ih3, pairCallback_p2wins]
      simp only [Nat.add_assoc]

/-- C4 (counterexample): a best-of-3 pairing (maps `m1 m2 m3`, required
wins `3 / 2 + 1 = 2`) in which player 1 wins every map.  The claim says no
further map is dispatched once a player has a majority, i.e. that exactly
2 maps are dispatched here; the series loop of `TourneyPairUpRunner.start`
has no early exit and dispatches all 3. -/
theorem c4_third_map_dispatched_after_majority :
    ((startPair (fun r => r) (fun _ => 1) 1 ["m1", "m2", "m3"]
        (some ⟨⟨"A", "", ""⟩, 1500⟩) (some ⟨⟨"B", "", ""⟩, 1400⟩)).map
      (fun o => o.dispatched.length)) = some 3 ∧
    ((startPair (fun r => r) (fun _ => 1) 1 ["m1", "m2", "m3"]
        (some ⟨⟨"A", "", ""⟩, 1500⟩) (some ⟨⟨"B", "", ""⟩, 1400⟩)).map
      (fun o => o.dispatched.length)) ≠ some 2 := by
  constructor <;> decide

/-- C4 (amended): within a tournament pairing, maps are dispatched
sequentially and ALL maps of the layer list are dispatched, in order,
regardless of the running score (there is no early exit at the required
win count); the pairing winner is player 1 exactly when
`p1wins >= p2wins` — the win counters being the counts of 1-results and
2-results among the per-map callbacks — so ties resolve in favor of
player 1. -/
theorem c4_series_dispatches_every_map_ties_favor_player1
    (urlOf : String → String) (results : Nat → Int)
    (startId : Int) (maps : List String) (a b : MatchPlayer) :
    ∃ o, startPair urlOf results startId maps (some a) (some b) = some o ∧
      o.dispatched.map Prod.snd = maps ∧
      o.advancing =
        (if seriesWinCount results 0 maps.length 2 ≤ seriesWinCount results 0 maps.length 1
         then a else b) := by
  obtain ⟨h1, h2, h3⟩ := runSeriesFrom_spec urlOf results startId maps 0 ⟨-1, 0, 0, [], []⟩
  simp only [startPair]
  rw [if_neg (by simp)]
  refine ⟨_, rfl, h1, ?_⟩
  simp only [h2, h3, ge_iff_le, Nat.zero_add]

/-! ## Claim C9 — bye pairings -/

/-- C9 (counterexample): a bye pairing returns a result dictionary whose
keys are `player1`, `player2`, `winner` and `replay_filename`; looking up
the key `overall_winner` that the claim (and every non-bye pairing result)
uses yields nothing. -/
theorem c9_bye_result_has_no_overall_winner_key :
    ((startPair (fun r => r) (fun _ => 1) 1 ["m1"]
        (some ⟨⟨"A", "", ""⟩, 1500⟩) none).map
      (fun o => o.result.lookup "overall_winner")) = some none := by decide

/-- C9 (amended): for every pairing in which exactly one side is `None`,
`TourneyPairUpRunner.start` returns immediately — no job is dispatched and
no database write occurs — and its result records `player2 = "bye"`, an
empty replay list, and the non-`None` player as the winner under the key
`"winner"` (not `"overall_winner"` as in non-bye results); that player is
the one advancing to the next layer. -/
theorem c9_bye_returns_immediately_with_winner_key
    (urlOf : String → String) (results : Nat → Int) (startId : Int)
    (maps : List String) (p1 p2 : Option MatchPlayer)
    (h : (p1 = none ∧ p2.isSome) ∨ (p1.isSome ∧ p2 = none)) :
    ∃ actual, (p1 = some actual ∨ p2 = some actual) ∧
      startPair urlOf results startId maps p1 p2 =
        some ⟨[("player1", JVal.s actual.user_info.username),
               ("player2", JVal.s "bye"),
               ("winner", JVal.s actual.user_info.username),
               ("replay_filename", JVal.strList [])],
              actual, [], []⟩ := by
  rcases h with ⟨h1, h2⟩ | ⟨h1, h2⟩
  · obtain ⟨x, hx⟩ := Option.isSome_iff_exists.mp h2
    subst h1
    subst hx
    exact ⟨x, Or.inr rfl, by simp [startPair, actualPlayer]⟩
  · obtain ⟨x, hx⟩ := Option.isSome_iff_exists.mp h1
    subst h2
    subst hx
    exact ⟨x, Or.inl rfl, by simp [startPair, actualPlayer]⟩

/-- Witness for `c9_bye_returns_immediately_with_winner_key` at a concrete
bye pairing. -/
theorem c9_bye_returns_immediately_with_winner_key_witness :
    (((some ⟨⟨"A", "", ""⟩, 1500⟩ : Option MatchPlayer) = none ∧
        (none : Option MatchPlayer).isSome) ∨
      ((some ⟨⟨"A", "", ""⟩, 1500⟩ : Option MatchPlayer).isSome ∧
        (none : Option MatchPlayer) = none)) ∧
    (∃ actual, ((some ⟨⟨"A", "", ""⟩, 1500⟩ : Option MatchPlayer) = some actual ∨
        (none : Option MatchPlayer) = some actual) ∧
      startPair (fun r => r) (fun _ => 1) 1 ["m1"] (some ⟨⟨"A", "", ""⟩, 1500⟩) none =
        some ⟨[("player1", JVal.s actual.user_info.username),
               ("player2", JVal.s "bye"),
               ("winner", JVal.s actual.user_info.username),
               ("replay_filename", JVal.strList [])],
              actual, [], []⟩) :=
  ⟨by decide, c9_bye_returns_immediately_with_winner_key
    (fun r => r) (fun _ => 1) 1 ["m1"] _ _ (by decide)⟩

/-! ## Elo arithmetic (`Elo`, src/server/ranked_game_runner.py)

The source computes the expected score in Python float (IEEE double)
arithmetic; the embedding uses exact real arithmetic with `Real.rpow`.
Python `int()` applied to a float truncates toward zero, embedded below as
`pyInt`.  The concrete rating differences evaluated in the theorems (0 and
400) make the real-valued expected score a small rational (1/2, 1/11) on
which the float computation of the source yields the same truncated
integer. -/

namespace Elo

/-- The class constant `Elo.k`. -/
def k : Int := 20

/-- Embedding of `Elo.calc_expected_score`:
`1 / (1 + pow(10, (second_elo - first_elo) / 400))`. -/
noncomputable def calc_expected_score (first_elo second_elo : Int) : ℝ :=
  1 / (1 + (10 : ℝ) ^ (((second_elo : ℝ) - (first_elo : ℝ)) / 400))

/-- Python `int()` on a float value: truncation toward zero. -/
noncomputable def pyInt (x : ℝ) : Int := if x < 0 then ⌈x⌉ else ⌊x⌋

/-- Embedding of `Elo.calc_elo_change`: the rating change for the first
team is `int(k * (score - expected_score))` with `score = 1` when the
first team won and `0` otherwise, and the second team receives the exact
negation. -/
noncomputable def calc_elo_change (first_elo second_elo : Int) (first_team_won : Bool) :
    Int × Int :=
  let score : ℝ := if first_team_won then 1 else 0
  let expected_score := calc_expected_score first_elo second_elo
  let rating_change := pyInt ((k : ℝ) * (score - expected_score))
  (rating_change, -1 * rating_change)

/-- With equal ratings the expected score is exactly one half. -/
lemma expected_score_eq_self (r : Int) : calc_expected_score r r = 1 / 2 := by
  unfold calc_expected_score
  norm_num

/-- With a 400-point rating deficit the expected score is exactly 1/11. -/
lemma expected_score_1000_1400 : calc_expected_score 1000 1400 = 1 / 11 := by
  unfold calc_expected_score
  norm_num

/-- A loss between equally rated teams moves exactly 10 points. -/
lemma elo_change_self_loss (r : Int) : calc_elo_change r r false = (-10, 10) := by
  unfold calc_elo_change pyInt k
  rw [expected_score_eq_self]
  norm_num
  rw [show ((-10 : ℝ)) = ((-10 : Int) : ℝ) by norm_num, Int.ceil_intCast]
  norm_num

end Elo

/-- The expected score is strictly positive. -/
lemma expected_score_pos (r1 r2 : Int) : 0 < Elo.calc_expected_score r1 r2 := by
  unfold Elo.calc_expected_score
  positivity

/-- The expected score is strictly below one. -/
lemma expected_score_lt_one (r1 r2 : Int) : Elo.calc_expected_score r1 r2 < 1 := by
  unfold Elo.calc_expected_score
  rw [div_lt_one (by positivity)]
  have h : (0 : ℝ) < (10 : ℝ) ^ (((r2 : ℝ) - (r1 : ℝ)) / 400) := by positivity
  linarith

/-! ## Ranked scrimmage batch state
(`RankedScrimmageTableEntry` and the callbacks of
`ranked_scrimmage_thread`, src/server/ranked_game_runner.py) -/

/-- Pointwise update of the elo-delta mapping:
`net_elo_changes[u] += c`. -/
def updAdd (net : String → Int) (u : String) (c : Int) : String → Int :=
  fun x => if x = u then net x + c else net x

/-- Embedding of the closure `post_tango_callback` of
`ranked_scrimmage_thread`: compute the Elo changes from the two players
sampled at scheduling time — treating the match as a player-2 win whenever
`winner != 1` — add them to `net_elo_changes`, and write the FINISHED row
with `elo_change = abs(player_1_change)` and outcome `team1`/`team2`. -/
noncomputable def post_tango_callback (urlOf : String → String)
    (net_elo_changes : String → Int) (player_1 player_2 : MatchPlayer)
    (match_id : Int) (winner : Int) (replay_filename : String) :
    (String → Int) × DbEffect :=
  let winner_is_player_1 : Bool := decide (winner = 1)
  let changes := Elo.calc_elo_change player_1.rating player_2.rating winner_is_player_1
  let net1 := updAdd net_elo_changes player_1.user_info.username changes.1
  let net2 := updAdd net1 player_2.user_info.username changes.2
  (net2,
   .updateFinished match_id (if winner_is_player_1 then "team1" else "team2")
     replay_filename |changes.1| (urlOf replay_filename))

/-- The dictionary comprehension of `post_scrimmage_callback`: the new
rating of every batch player is its scheduling-time rating plus its
accumulated net Elo change (the keys of `net_elo_changes` are exactly the
scrimmage players, in order). -/
def post_scrimmage_updated_elos (players : List MatchPlayer) (net : String → Int) :
    List (String × Int) :=
  players.map (fun p => (p.user_info.username, p.rating + net p.user_info.username))

/-- Embedding of `RankedScrimmagePostMatchCallbacks`: the remaining-match
counter and the per-match callback table.  Every registered callback in the
source is `functools.partial(post_tango_callback, player_1, player_2,
match_id)` with the key equal to the partially applied match id, so the
table stores the pair of players. -/
structure RankedScrimmagePostMatchCallbacks where
  matches_left : Int
  post_match_callbacks : List (Int × MatchPlayer × MatchPlayer)

/-- The state touched by a ranked batch: the scrimmage players (the keys of
`net_elo_changes` and `players_map`), the shared elo-delta mapping, and the
`RankedScrimmageTableEntry.callbacks` field (`none` before `setup`). -/
structure ScrimmageBatch where
  players : List MatchPlayer
  net_elo_changes : String → Int
  callbacks : Option RankedScrimmagePostMatchCallbacks

/-- Embedding of `RankedScrimmageTableEntry.run_callback`
(src/server/ranked_game_runner.py).  A `none` callbacks field
(`raise Exception()`) or a match id missing from the table (`KeyError`)
raises before any state is touched — the `.error` cases.  Otherwise the
registered per-match callback runs UNCONDITIONALLY — the source has no
`winner > 0` guard — then `matches_left` is decremented, and when it
reaches zero `post_scrimmage_callback` applies the accumulated Elo
changes. -/
noncomputable def run_callback (urlOf : String → String) (st : ScrimmageBatch)
    (match_id : Int) (outcome : Int) (replay_file : String) :
    Except Unit (ScrimmageBatch × List DbEffect) :=
  match st.callbacks with
  | none => .error ()
  | some cbs =>
    match cbs.post_match_callbacks.lookup match_id with
    | none => .error ()
    | some (player_1, player_2) =>
      let step := post_tango_callback urlOf st.net_elo_changes player_1 player_2
        match_id outcome replay_file
      let matches_left := cbs.matches_left - 1
      let st1 : ScrimmageBatch :=
        { st with net_elo_changes := step.1,
                  callbacks := some { cbs with matches_left := matches_left } }
      if matches_left = 0 then
        .ok (st1, [step.2,
          .adjustElo (post_scrimmage_updated_elos st1.players st1.net_elo_changes)])
      else
        .ok (st1, [step.2])

/-! ## Claim C5 — Elo delta formula -/

/-- C5 (counterexample): at ratings r1 = 1000, r2 = 1400 with a player-1
loss, the code computes `int(20 * (0 - 1/11)) = -1` (truncation toward
zero), while the floor formula of the claim gives
`floor(20 * (0 - 1/11)) = -2`; the two disagree. -/
theorem c5_loss_delta_is_trunc_not_floor :
    (Elo.calc_elo_change 1000 1400 false).1 = -1 ∧
    ⌊(Elo.k : ℝ) * ((if (false : Bool) then (1 : ℝ) else 0)
        - Elo.calc_expected_score 1000 1400)⌋ = -2 ∧
    (Elo.calc_elo_change 1000 1400 false).1 ≠
      ⌊(Elo.k : ℝ) * ((if (false : Bool) then (1 : ℝ) else 0)
        - Elo.calc_expected_score 1000 1400)⌋ := by
  have h1 : (Elo.calc_elo_change 1000 1400 false).1 = -1 := by
    unfold Elo.calc_elo_change Elo.pyInt Elo.k
    rw [Elo.expected_score_1000_1400]
    norm_num
    rw [Int.ceil_eq_iff]
    constructor <;> norm_num
  have h2 : ⌊(Elo.k : ℝ) * ((if (false : Bool) then (1 : ℝ) else 0)
      - Elo.calc_expected_score 1000 1400)⌋ = -2 := by
    rw [Elo.expected_score_1000_1400]
    unfold Elo.k
    rw [Int.floor_eq_iff]
    constructor <;> norm_num
  exact ⟨h1, h2, by rw [h1, h2]; decide⟩

/-- C5 (amended): the Elo deltas use Python `int()` truncation toward
zero, not floor: `delta1 = floor(20 * (1 - expected))` when player 1 won
(the value is positive, so truncation and floor agree) and
`delta1 = ceil(20 * (0 - expected))` when player 1 lost (the value is
negative, so truncation is the ceiling); `delta2 = -delta1` exactly, and
the FINISHED row written by `post_tango_callback` records
`elo_change = abs(delta1)`, the truncation-based magnitude. -/
theorem c5_elo_delta_trunc_characterization (r1 r2 : Int) (w : Bool) :
    Elo.calc_elo_change r1 r2 w =
      ((if w then ⌊(Elo.k : ℝ) * (1 - Elo.calc_expected_score r1 r2)⌋
        else ⌈(Elo.k : ℝ) * (0 - Elo.calc_expected_score r1 r2)⌉),
       -1 * (if w then ⌊(Elo.k : ℝ) * (1 - Elo.calc_expected_score r1 r2)⌋
        else ⌈(Elo.k : ℝ) * (0 - Elo.calc_expected_score r1 r2)⌉)) ∧
    (∀ (urlOf : String → String) (net : String → Int) (p1 p2 : MatchPlayer)
       (mid winner : Int) (replay : String),
      (post_tango_callback urlOf net p1 p2 mid winner replay).2 =
        .updateFinished mid
          (if winner = 1 then "team1" else "team2") replay
          |(Elo.calc_elo_change p1.rating p2.rating (decide (winner = 1))).1|
          (urlOf replay)) := by
  constructor
  · have hpos := expected_score_pos r1 r2
    have hlt := expected_score_lt_one r1 r2
    unfold Elo.calc_elo_change Elo.pyInt Elo.k
    cases w
    · simp only [Bool.false_eq_true, if_false, ite_false]
      rw [if_pos (by push_cast; nlinarith)]
    · simp only [ite_true]
      rw [if_neg (by push_cast; nlinarith)]
  · intro urlOf net p1 p2 mid winner replay
    simp only [post_tango_callback, decide_eq_true_eq]

/-! ## Claim C1 — run_callback on a failed match -/

/-- C1 (evaluation at the failing input): a ranked batch of two equally
rated players with one registered match (id 7, one permit outstanding),
fired with `winner = -1` as `run_scrimmage_callback` does on a malformed
runner output.  The claim says the per-match callback is NOT invoked and
the match contributes no Elo delta and is not updated to FINISHED, while
`matches_left` is still decremented.  In the source, `run_callback` has no
`winner > 0` guard: the callback IS invoked, counts the failure as a
player-2 win, moves 10 Elo points from alice to bob, and overwrites the
row — which `run_scrimmage_callback` had just marked FAILED — to FINISHED
with outcome team2 and an empty replay filename.  Only the decrement of
`matches_left` (here to 0, which also fires the batch-completion callback
applying the bogus deltas) matches the claim. -/
theorem c1_failed_match_still_runs_callback :
    ∃ st1 effs,
      run_callback (fun r => r)
        { players := [⟨⟨"alice", "", ""⟩, 1500⟩, ⟨⟨"bob", "", ""⟩, 1500⟩],
          net_elo_changes := fun _ => 0,
          callbacks := some { matches_left := 1,
                              post_match_callbacks :=
                                [(7, ⟨⟨"alice", "", ""⟩, 1500⟩, ⟨⟨"bob", "", ""⟩, 1500⟩)] } }
        7 (-1) "" = .ok (st1, effs) ∧
      st1.net_elo_changes "alice" = -10 ∧
      st1.net_elo_changes "bob" = 10 ∧
      (st1.callbacks.map RankedScrimmagePostMatchCallbacks.matches_left) = some 0 ∧
      effs = [.updateFinished 7 "team2" "" 10 "",
              .adjustElo [("alice", 1490), ("bob", 1510)]] := by
  refine ⟨_, _, rfl, ?_, ?_, ?_, ?_⟩ <;>
    simp [run_callback, post_tango_callback, Elo.elo_change_self_loss, updAdd,
      post_scrimmage_updated_elos]

/-! ## Claim C6 — zero-sum Elo across a batch -/

/-- One completed match of a ranked batch, as delivered to
`post_tango_callback`: the two players sampled at scheduling time, the
match id, the parsed winner and the replay filename. -/
structure ScrimmageEvent where
  player_1 : MatchPlayer
  player_2 : MatchPlayer
  match_id : Int
  winner : Int
  replay_filename : String

/-- The elo-delta mapping accumulated by running `post_tango_callback`
over a sequence of completed matches, starting from `net0` (the source
initialises every player to 0). -/
noncomputable def netAfter (urlOf : String → String) (events : List ScrimmageEvent)
    (net0 : String → Int) : String → Int :=
  events.foldl (fun net e =>
    (post_tango_callback urlOf net e.player_1 e.player_2 e.match_id e.winner
      e.replay_filename).1) net0

/-- Adding `c` at a name occurring exactly once in a duplicate-free name
list shifts the total by exactly `c`. -/
lemma sum_map_updAdd :
    ∀ (names : List String), names.Nodup → ∀ (u : String), u ∈ names →
      ∀ (net : String → Int) (c : Int),
      (names.map (updAdd net u c)).sum = (names.map net).sum + c := by
  intro names
  induction names with
  | nil =>
    intro _ u hu
    simp at hu
  | cons n rest ih =>
    intro hnd u hu net c
    rcases List.mem_cons.mp hu with rfl | hmem
    · have hnotin : u ∉ rest := (List.nodup_cons.mp hnd).1
      simp only [List.map_cons, List.sum_cons]
      rw [show updAdd net u c u = net u + c by simp [updAdd]]
      have hrest : rest.map (updAdd net u c) = rest.map net :=
        List.map_congr_left (fun x hx => by
          simp [updAdd, ne_of_mem_of_not_mem hx hnotin])
      rw [hrest]
      omega
    · have hne : u ≠ n := fun e => (List.nodup_cons.mp hnd).1 (e ▸ hmem)
      simp only [List.map_cons, List.sum_cons]
      rw [show updAdd net u c n = net n by simp [updAdd, Ne.symm hne]]
      rw [ih (List.nodup_cons.mp hnd).2 u hmem net c]
      omega

/-- One `post_tango_callback` preserves the total of the elo-delta
mapping: it adds `delta1` to player 1 and exactly `-delta1` to player 2. -/
lemma post_tango_callback_sum (urlOf : String → String) (names : List String)
    (hnd : names.Nodup) (net : String → Int) (p1 p2 : MatchPlayer)
    (mid w : Int) (r : String)
    (h1 : p1.user_info.username ∈ names) (h2 : p2.user_info.username ∈ names) :
    (names.map ((post_tango_callback urlOf net p1 p2 mid w r).1)).sum
      = (names.map net).sum := by
  have hneg : (Elo.calc_elo_change p1.rating p2.rating (decide (w = 1))).2
      = -1 * (Elo.calc_elo_change p1.rating p2.rating (decide (w = 1))).1 := rfl
  simp only [post_tango_callback]
  rw [sum_map_updAdd names hnd _ h2, sum_map_updAdd names hnd _ h1, hneg]
  ring

/-- Folding any sequence of completed-match callbacks over the elo-delta
mapping preserves its total across the batch players. -/
lemma netAfter_sum (urlOf : String → String) (names : List String) (hnd : names.Nodup) :
    ∀ (events : List ScrimmageEvent) (net0 : String → Int),
      (∀ e ∈ events, e.player_1.user_info.username ∈ names ∧
        e.player_2.user_info.username ∈ names) →
      (names.map (netAfter urlOf events net0)).sum = (names.map net0).sum := by
  intro events
  induction events with
  | nil => intro net0 _; rfl
  | cons e rest ih =>
    intro net0 hmem
    have he := hmem e (List.mem_cons_self _ _)
    have hstep : netAfter urlOf (e :: rest) net0
        = netAfter urlOf rest ((post_tango_callback urlOf net0 e.player_1 e.player_2
            e.match_id e.winner e.replay_filename).1) := rfl
    rw [hstep, ih _ (fun x hx => hmem x (List.mem_cons_of_mem _ hx))]
    exact post_tango_callback_sum urlOf names hnd net0 e.player_1 e.player_2
      e.match_id e.winner e.replay_filename he.1 he.2

/-- Summing a pointwise sum of integer-valued functions over a player list
splits into the two sums. -/
lemma sum_map_add_players (l : List MatchPlayer) (f g : MatchPlayer → Int) :
    (l.map (fun x => f x + g x)).sum = (l.map f).sum + (l.map g).sum := by
  induction l with
  | nil => rfl
  | cons x xs ih =>
    simp only [List.map_cons, List.sum_cons, ih]
    omega

/-- C6: after a ranked scrimmage batch completes — any sequence of
per-match callbacks whose participants are batch players (with
duplicate-free usernames) — the ratings written by
`post_scrimmage_callback` sum to exactly the sum of the scheduling-time
ratings: the batch is zero-sum, because every match contributes deltas
`(d, -d)` to exactly its two participants. -/
theorem c6_scrimmage_elo_zero_sum (urlOf : String → String)
    (players : List MatchPlayer) (events : List ScrimmageEvent)
    (hnd : (players.map (fun p => p.user_info.username)).Nodup)
    (hmem : ∀ e ∈ events,
        e.player_1.user_info.username ∈ players.map (fun p => p.user_info.username) ∧
        e.player_2.user_info.username ∈ players.map (fun p => p.user_info.username)) :
    ((post_scrimmage_updated_elos players (netAfter urlOf events (fun _ => 0))).map
        Prod.snd).sum
      = (players.map MatchPlayer.rating).sum := by
  unfold post_scrimmage_updated_elos
  rw [List.map_map]
  have hsplit : (Prod.snd ∘ fun p : MatchPlayer =>
      (p.user_info.username, p.rating + netAfter urlOf events (fun _ => 0) p.user_info.username))
      = fun p : MatchPlayer =>
        p.rating + netAfter urlOf events (fun _ => 0) p.user_info.username := rfl
  rw [hsplit, sum_map_add_players players MatchPlayer.rating
    (fun p => netAfter urlOf events (fun _ => 0) p.user_info.username)]
  have hmapmap : players.map (fun p => netAfter urlOf events (fun _ => 0) p.user_info.username)
      = (players.map (fun p => p.user_info.username)).map (netAfter urlOf events (fun _ => 0)) := by
    rw [List.map_map]
    rfl
  rw [hmapmap, netAfter_sum urlOf _ hnd events _ hmem]
  rw [List.map_map]
  exact congrArg (· + _) rfl |>.trans (by
    rw [show ((players.map ((fun _ => (0 : Int)) ∘ fun p : MatchPlayer => p.user_info.username)).sum) = 0
      from List.sum_eq_zero (fun x hx => by
        rcases List.mem_map.mp hx with ⟨p, _, rfl⟩
        rfl)]
    omega)

/-- Witness for `c6_scrimmage_elo_zero_sum` at the §8 scenario-4 batch:
players A..D at 1600/1500/1400/1300 and the six pairings, every match won
by its first-listed (lower-rated) player. -/
theorem c6_scrimmage_elo_zero_sum_witness :
    ([⟨⟨"A", "", ""⟩, 1600⟩, ⟨⟨"B", "", ""⟩, 1500⟩, ⟨⟨"C", "", ""⟩, 1400⟩,
       ⟨⟨"D", "", ""⟩, 1300⟩].map
        (fun p : MatchPlayer => p.user_info.username)).Nodup ∧
    (∀ e ∈ [(⟨⟨⟨"B", "", ""⟩, 1500⟩, ⟨⟨"A", "", ""⟩, 1600⟩, 1, 1, "r1"⟩ : ScrimmageEvent),
            ⟨⟨⟨"C", "", ""⟩, 1400⟩, ⟨⟨"A", "", ""⟩, 1600⟩, 2, 1, "r2"⟩,
            ⟨⟨⟨"D", "", ""⟩, 1300⟩, ⟨⟨"A", "", ""⟩, 1600⟩, 3, 1, "r3"⟩,
            ⟨⟨⟨"C", "", ""⟩, 1400⟩, ⟨⟨"B", "", ""⟩, 1500⟩, 4, 1, "r4"⟩,
            ⟨⟨⟨"D", "", ""⟩, 1300⟩, ⟨⟨"B", "", ""⟩, 1500⟩, 5, 1, "r5"⟩,
            ⟨⟨⟨"D", "", ""⟩, 1300⟩, ⟨⟨"C", "", ""⟩, 1400⟩, 6, 1, "r6"⟩],
      e.player_1.user_info.username ∈
          ([⟨⟨"A", "", ""⟩, 1600⟩, ⟨⟨"B", "", ""⟩, 1500⟩, ⟨⟨"C", "", ""⟩, 1400⟩,
            ⟨⟨"D", "", ""⟩, 1300⟩].map (fun p : MatchPlayer => p.user_info.username)) ∧
        e.player_2.user_info.username ∈
          ([⟨⟨"A", "", ""⟩, 1600⟩, ⟨⟨"B", "", ""⟩, 1500⟩, ⟨⟨"C", "", ""⟩, 1400⟩,
            ⟨⟨"D", "", ""⟩, 1300⟩].map (fun p : MatchPlayer => p.user_info.username))) ∧
    ((post_scrimmage_updated_elos
        [⟨⟨"A", "", ""⟩, 1600⟩, ⟨⟨"B", "", ""⟩, 1500⟩, ⟨⟨"C", "", ""⟩, 1400⟩,
         ⟨⟨"D", "", ""⟩, 1300⟩]
        (netAfter (fun r => r)
          [⟨⟨⟨"B", "", ""⟩, 1500⟩, ⟨⟨"A", "", ""⟩, 1600⟩, 1, 1, "r1"⟩,
           ⟨⟨⟨"C", "", ""⟩, 1400⟩, ⟨⟨"A", "", ""⟩, 1600⟩, 2, 1, "r2"⟩,
           ⟨⟨⟨"D", "", ""⟩, 1300⟩, ⟨⟨"A", "", ""⟩, 1600⟩, 3, 1, "r3"⟩,
           ⟨⟨⟨"C", "", ""⟩, 1400⟩, ⟨⟨"B", "", ""⟩, 1500⟩, 4, 1, "r4"⟩,
           ⟨⟨⟨"D", "", ""⟩, 1300⟩, ⟨⟨"B", "", ""⟩, 1500⟩, 5, 1, "r5"⟩,
           ⟨⟨⟨"D", "", ""⟩, 1300⟩, ⟨⟨"C", "", ""⟩, 1400⟩, 6, 1, "r6"⟩]
          (fun _ => 0))).map Prod.snd).sum
      = ([⟨⟨"A", "", ""⟩, 1600⟩, ⟨⟨"B", "", ""⟩, 1500⟩, ⟨⟨"C", "", ""⟩, 1400⟩,
          ⟨⟨"D", "", ""⟩, 1300⟩].map MatchPlayer.rating).sum :=
  ⟨by decide, by decide,
   c6_scrimmage_elo_zero_sum (fun r => r) _ _ (by decide) (by decide)⟩

/-! ## Claim C10 — firing an unregistered match id -/

/-- C10: firing either registry for a match id that was never registered —
or firing the ranked registry before its batch entry is set up — raises
(`.error`, embedding the `Exception` and the `KeyError` both raised before
any mutation statement runs): the per-match callback is not invoked, no
database effect is produced, `matches_left` is not decremented, and no
batch-completion callback fires, so the registry state is unchanged. -/
theorem c10_unregistered_fire_raises :
    (∀ (urlOf : String → String) (st : ScrimmageBatch) (match_id outcome : Int)
       (replay : String), st.callbacks = none →
        run_callback urlOf st match_id outcome replay = .error ()) ∧
    (∀ (urlOf : String → String) (st : ScrimmageBatch)
       (cbs : RankedScrimmagePostMatchCallbacks) (match_id outcome : Int) (replay : String),
        st.callbacks = some cbs →
        cbs.post_match_callbacks.lookup match_id = none →
        run_callback urlOf st match_id outcome replay = .error ()) ∧
    (∀ (urlOf : String → String) (tbl : List (Int × SeriesState)) (match_id winner : Int)
       (replay : String), tbl.lookup match_id = none →
        ongoingTourneyFire urlOf tbl match_id winner replay = .error ()) := by
  refine ⟨?_, ?_, ?_⟩
  · intro urlOf st mid o r h
    simp [run_callback, h]
  · intro urlOf st cbs mid o r h hl
    simp [run_callback, h, hl]
  · intro urlOf tbl mid w r h
    simp [ongoingTourneyFire, h]

/-- Witness for `c10_unregistered_fire_raises`: a not-yet-set-up ranked
entry, a set-up ranked entry with an empty table, and an empty tournament
registry, each fired at match id 5. -/
theorem c10_unregistered_fire_raises_witness :
    run_callback (fun r => r)
      { players := [], net_elo_changes := fun _ => 0, callbacks := none } 5 1 "r"
      = .error () ∧
    run_callback (fun r => r)
      { players := [], net_elo_changes := fun _ => 0,
        callbacks := some { matches_left := 2, post_match_callbacks := [] } } 5 1 "r"
      = .error () ∧
    ongoingTourneyFire (fun r => r) [] 5 1 "r" = .error () :=
  ⟨c10_unregistered_fire_raises.1 _ _ 5 1 "r" rfl,
   c10_unregistered_fire_raises.2.1 _ _ _ 5 1 "r" rfl rfl,
   c10_unregistered_fire_raises.2.2 _ _ 5 1 "r" rfl⟩

/-! ## Claim C8 — engine registry update (`setup_game_engine`, src/main.py) -/

/-- Embedding of `MapSelection` (src/server/game_engine.py). -/
structure MapSelection where
  unranked_possible_maps : List String
  ranked_possible_maps : List String
  tourney_map_order : List (List String)
  deriving DecidableEq, Repr

/-- Embedding of `GameEngine` (src/server/game_engine.py). -/
structure GameEngine where
  game_engine_name : String
  engine_filename : String
  engine_download_url : String
  makefile_filename : String
  makefile_download_url : String
  num_players : Int
  map_choice : MapSelection
  deriving DecidableEq, Repr

/-- The handle returned by `TangoInterface.upload_file`
(src/server/tango.py): `{localFile: tango_name, destFile: vm_name}`. -/
structure FileHandle where
  localFile : String
  destFile : String
  deriving DecidableEq, Repr

/-- The engine-registry fields of the `API` application object
(src/main.py) that `setup_game_engine` touches: the active engine, the
uploaded engine and makefile handles, and the map selection. -/
structure AppEngineState where
  engine : Option GameEngine
  engine_filename : Option FileHandle
  makefile : Option FileHandle
  maps : Option MapSelection
  deriving DecidableEq, Repr

/-- Embedding of `setup_game_engine` (src/main.py): assign `app.engine`,
upload and assign `app.engine_filename` (with `tango_name = vm_name =
engine_filename`) and `app.makefile`, THEN validate that every tournament
map layer has odd length — raising HTTP 400 (the `some layer` error
component, after which the already-performed assignments persist on the
application object) — and only on success assign `app.maps`. -/
def setup_game_engine (st : AppEngineState) (new_engine : GameEngine) :
    AppEngineState × Option (List String) :=
  let st1 := { st with engine := some new_engine }
  let st2 := { st1 with
                engine_filename := some ⟨new_engine.engine_filename, new_engine.engine_filename⟩ }
  let st3 := { st2 with makefile := some ⟨"autograde-Makefile", "Makefile"⟩ }
  match new_engine.map_choice.tourney_map_order.find? (fun layer => layer.length % 2 != 1) with
  | some layer => (st3, some layer)
  | none => ({ st3 with maps := some new_engine.map_choice }, none)

/-- C8 (counterexample): uploading an engine whose tournament map order
has an even-length layer is rejected with HTTP 400, but the previously
active engine state does NOT remain in place: the active engine and the
uploaded handles are already replaced, and only the map selection keeps
its previous value — a partial update. -/
theorem c8_failed_setup_leaves_partial_update :
    (setup_game_engine
        { engine := some ⟨"eng1", "e1", "du1", "mk1", "du2", 2, ⟨["u1"], ["r1"], [["t1"]]⟩⟩,
          engine_filename := some ⟨"e1", "e1"⟩,
          makefile := some ⟨"autograde-Makefile", "Makefile"⟩,
          maps := some ⟨["u1"], ["r1"], [["t1"]]⟩ }
        ⟨"eng2", "e2", "du3", "mk2", "du4", 2, ⟨["u2"], ["r2"], [["m1", "m2"]]⟩⟩).2
      = some ["m1", "m2"] ∧
    (setup_game_engine
        { engine := some ⟨"eng1", "e1", "du1", "mk1", "du2", 2, ⟨["u1"], ["r1"], [["t1"]]⟩⟩,
          engine_filename := some ⟨"e1", "e1"⟩,
          makefile := some ⟨"autograde-Makefile", "Makefile"⟩,
          maps := some ⟨["u1"], ["r1"], [["t1"]]⟩ }
        ⟨"eng2", "e2", "du3", "mk2", "du4", 2, ⟨["u2"], ["r2"], [["m1", "m2"]]⟩⟩).1.engine
      = some ⟨"eng2", "e2", "du3", "mk2", "du4", 2, ⟨["u2"], ["r2"], [["m1", "m2"]]⟩⟩ ∧
    (setup_game_engine
        { engine := some ⟨"eng1", "e1", "du1", "mk1", "du2", 2, ⟨["u1"], ["r1"], [["t1"]]⟩⟩,
          engine_filename := some ⟨"e1", "e1"⟩,
          makefile := some ⟨"autograde-Makefile", "Makefile"⟩,
          maps := some ⟨["u1"], ["r1"], [["t1"]]⟩ }
        ⟨"eng2", "e2", "du3", "mk2", "du4", 2, ⟨["u2"], ["r2"], [["m1", "m2"]]⟩⟩).1.maps
      = some ⟨["u1"], ["r1"], [["t1"]]⟩ ∧
    (setup_game_engine
        { engine := some ⟨"eng1", "e1", "du1", "mk1", "du2", 2, ⟨["u1"], ["r1"], [["t1"]]⟩⟩,
          engine_filename := some ⟨"e1", "e1"⟩,
          makefile := some ⟨"autograde-Makefile", "Makefile"⟩,
          maps := some ⟨["u1"], ["r1"], [["t1"]]⟩ }
        ⟨"eng2", "e2", "du3", "mk2", "du4", 2, ⟨["u2"], ["r2"], [["m1", "m2"]]⟩⟩).1
      ≠ { engine := some ⟨"eng1", "e1", "du1", "mk1", "du2", 2, ⟨["u1"], ["r1"], [["t1"]]⟩⟩,
          engine_filename := some ⟨"e1", "e1"⟩,
          makefile := some ⟨"autograde-Makefile", "Makefile"⟩,
          maps := some ⟨["u1"], ["r1"], [["t1"]]⟩ } := by
  refine ⟨by decide, by decide, by decide, by decide⟩

/-- C8 (amended): `setup_game_engine` always replaces the active engine
and the uploaded engine/makefile handles before validating the map
selection; it succeeds (no HTTP 400) exactly when every tournament map
layer has odd length, and only then is the map selection replaced — on a
validation failure the registry is left partially updated, with the new
engine and handles but the previous map selection. -/
theorem c8_engine_replaced_before_validation (st : AppEngineState) (e : GameEngine) :
    (setup_game_engine st e).1.engine = some e ∧
    (setup_game_engine st e).1.engine_filename = some ⟨e.engine_filename, e.engine_filename⟩ ∧
    (setup_game_engine st e).1.makefile = some ⟨"autograde-Makefile", "Makefile"⟩ ∧
    ((setup_game_engine st e).2 = none ↔
      ∀ layer ∈ e.map_choice.tourney_map_order, layer.length % 2 = 1) ∧
    (setup_game_engine st e).1.maps =
      (if (setup_game_engine st e).2 = none then some e.map_choice else st.maps) := by
  unfold setup_game_engine
  cases hf : e.map_choice.tourney_map_order.find? (fun layer => layer.length % 2 != 1) with
  | none =>
    have hall := List.find?_eq_none.mp hf
    simp only []
    refine ⟨trivial, trivial, trivial, ?_, ?_⟩
    · simp only [true_iff]
      intro layer hl
      have := hall layer hl
      simpa using this
    · simp
  | some layer =>
    have hp := List.find?_some hf
    have hmem := List.mem_of_find?_eq_some hf
    simp only []
    refine ⟨trivial, trivial, trivial, ?_, ?_⟩
    · simp only [reduceCtorEq, false_iff]
      intro hallodd
      have := hallodd layer hmem
      simp [this] at hp
    · simp

end Awap
